import Mathlib

/-!
Verification of the request-schema module (src/python/api/api_resquest.py).

The source defines an abstract marker class RESTRequest together with three
plain dataclasses: Identifier, CreateDatabaseRequest and AlterDatabaseRequest.
A Python dataclass generated constructor simply assigns the given field
values; the source contains no validation code of any kind, the dataclasses
are not frozen, and equality is the dataclass-derived structural comparison.
We embed the runtime behaviour of those declarations: construction as an
Except-valued function (fallible in principle, infallible here because the
source never raises), attribute assignment on the non-frozen instances,
dataclass equality (with Python dict equality, which ignores insertion
order), and the class hierarchy with Python ABC instantiation rules.
-/

/-- Error kinds named by the module contract: a construction-time
validation failure carrying the offending field, a dispatch-time type
mismatch, and the error a frozen dataclass would raise on attribute
assignment. -/
inductive PyError where
  | validationError (field : String)
  | typeMismatchError
  | frozenInstanceError
  deriving DecidableEq

/-- Embedding of the dataclass Identifier: two string fields, stored
verbatim. -/
structure Identifier where
  database_name : String
  object_name : String
  deriving DecidableEq

/-- Embedding of the dataclass CreateDatabaseRequest: a string field and a
string-to-string dict, represented as an insertion-ordered association
list. -/
structure CreateDatabaseRequest where
  name : String
  properties : List (String × String)
  deriving DecidableEq

/-- Embedding of the dataclass AlterDatabaseRequest: a list of string
removals and a string-to-string dict of updates. -/
structure AlterDatabaseRequest where
  removals : List String
  updates : List (String × String)
  deriving DecidableEq

/-- Python dict lookup on the association-list representation: the value
stored under a key, if present. -/
def dlookup (k : String) : List (String × String) → Option String
  | [] => none
  | (k1, v) :: rest => if k1 = k then some v else dlookup k rest

/-- Python dict equality: dicts compare equal exactly when they hold the
same key-to-value mapping, regardless of insertion order. -/
def dictEq (d1 d2 : List (String × String)) : Bool :=
  (d1.all fun p => dlookup p.1 d2 == some p.2) &&
    (d2.all fun p => dlookup p.1 d1 == some p.2)

/-- The generated constructor of Identifier: it assigns the two fields and
performs no check, so it never produces an error. -/
def Identifier.construct (database_name object_name : String) :
    Except PyError Identifier :=
  .ok ⟨database_name, object_name⟩

/-- The generated constructor of CreateDatabaseRequest: field assignment
only, no validation. -/
def CreateDatabaseRequest.construct (name : String)
    (properties : List (String × String)) :
    Except PyError CreateDatabaseRequest :=
  .ok ⟨name, properties⟩

/-- The generated constructor of AlterDatabaseRequest: field assignment
only, no validation, in particular no check that removals and updates are
disjoint. -/
def AlterDatabaseRequest.construct (removals : List String)
    (updates : List (String × String)) :
    Except PyError AlterDatabaseRequest :=
  .ok ⟨removals, updates⟩

/-- The dataclass decorator on Identifier is used with its defaults, so the
frozen flag is false. -/
def Identifier.frozen : Bool := false

/-- Attribute assignment on an Identifier instance: a frozen dataclass
would raise, but the source dataclass is not frozen, so assignment succeeds
and replaces the field. -/
def Identifier.set_database_name (i : Identifier) (v : String) :
    Except PyError Identifier :=
  if Identifier.frozen then .error .frozenInstanceError
  else .ok ⟨v, i.object_name⟩

/-- The dataclass-derived equality of Identifier: same class, fields
compared pairwise. -/
def Identifier.pyEq (a b : Identifier) : Bool :=
  a.database_name == b.database_name && a.object_name == b.object_name

/-- The dataclass-derived equality of CreateDatabaseRequest: the name
strings compared, the properties dicts compared as dicts. -/
def CreateDatabaseRequest.pyEq (a b : CreateDatabaseRequest) : Bool :=
  a.name == b.name && dictEq a.properties b.properties

/-- The dataclass-derived equality of AlterDatabaseRequest: the removals
lists compared elementwise, the updates dicts compared as dicts. -/
def AlterDatabaseRequest.pyEq (a b : AlterDatabaseRequest) : Bool :=
  a.removals == b.removals && dictEq a.updates b.updates

/-- The classes declared in the source (plus the imported ABC base). -/
inductive PyClass where
  | abcBase
  | restRequest
  | identifierClass
  | createDatabaseRequestClass
  | alterDatabaseRequestClass
  deriving DecidableEq

/-- The superclass chain of each class, read off the class statements of
the source: RESTRequest extends ABC, the two request dataclasses extend
RESTRequest, Identifier extends nothing. -/
def superclasses : PyClass → List PyClass
  | .abcBase => [.abcBase]
  | .restRequest => [.restRequest, .abcBase]
  | .identifierClass => [.identifierClass]
  | .createDatabaseRequestClass =>
      [.createDatabaseRequestClass, .restRequest, .abcBase]
  | .alterDatabaseRequestClass =>
      [.alterDatabaseRequestClass, .restRequest, .abcBase]

/-- The abstract methods each class declares: the source marks no method
abstract anywhere (the RESTRequest body is only pass). -/
def declaredAbstractMethods : PyClass → List String
  | _ => []

/-- The abstract methods a class carries at runtime: everything declared
along its superclass chain and not overridden; empty for every class
here. -/
def abstractMethods (c : PyClass) : List String :=
  (superclasses c).flatMap declaredAbstractMethods

/-- Python ABC instantiation rule: calling a class whose set of remaining
abstract methods is empty produces an instance; otherwise it raises. An
ABC subclass with no abstract methods is therefore directly
instantiable. -/
def instantiable (c : PyClass) : Bool :=
  (abstractMethods c).isEmpty

/-- Runtime values a dispatcher may be handed: an instance of one of the
three dataclasses, or a direct instance of the bare RESTRequest class. -/
inductive PyValue where
  | bareRESTRequest
  | ofIdentifier (i : Identifier)
  | ofCreateDatabaseRequest (r : CreateDatabaseRequest)
  | ofAlterDatabaseRequest (r : AlterDatabaseRequest)

/-- The runtime class of a value. -/
def PyValue.classOf : PyValue → PyClass
  | .bareRESTRequest => .restRequest
  | .ofIdentifier _ => .identifierClass
  | .ofCreateDatabaseRequest _ => .createDatabaseRequestClass
  | .ofAlterDatabaseRequest _ => .alterDatabaseRequestClass

/-- Python isinstance on the embedded hierarchy: the class of the value,
or any of its superclasses, is the queried class. -/
def isinstance (v : PyValue) (c : PyClass) : Bool :=
  c ∈ superclasses v.classOf

/-- Modelled from the spec: classify_as_request is absent from src (the
source only declares the RESTRequest hierarchy). Per the spec it returns
true when the value is one of the known RESTRequest variants, namely
CreateDatabaseRequest and AlterDatabaseRequest per the class statements in
the source, and fails with TypeMismatchError on any other value. -/
def classify_as_request : PyValue → Except PyError Bool
  | .ofCreateDatabaseRequest _ => .ok true
  | .ofAlterDatabaseRequest _ => .ok true
  | _ => .error .typeMismatchError

/-- A key that dlookup resolves to a value is stored in the dict. -/
theorem dlookup_mem (k v : String) (d : List (String × String))
    (h : dlookup k d = some v) : (k, v) ∈ d := by
  induction d with
  | nil => simp [dlookup] at h
  | cons p rest ih =>
    obtain ⟨k1, v1⟩ := p
    by_cases hk : k1 = k
    · subst hk
      simp [dlookup] at h
      subst h
      exact List.mem_cons_self _ _
    · simp only [dlookup, if_neg hk] at h
      exact List.mem_cons_of_mem _ (ih h)

/-- In a dict with distinct keys, every stored pair is found by dlookup. -/
theorem mem_dlookup (k v : String) (d : List (String × String))
    (hnd : (d.map Prod.fst).Nodup) (h : (k, v) ∈ d) : dlookup k d = some v := by
  induction d with
  | nil => simp at h
  | cons p rest ih =>
    obtain ⟨k1, v1⟩ := p
    simp only [List.map_cons, List.nodup_cons] at hnd
    rcases List.mem_cons.mp h with heq | hmem
    · cases heq
      simp [dlookup]
    · have hne : k1 ≠ k := by
        intro e
        exact hnd.1 (by rw [e]; exact List.mem_map_of_mem Prod.fst hmem)
      simp only [dlookup, if_neg hne]
      exact ih hnd.2 hmem

/-- Python dict equality coincides with pointwise key lookup whenever both
dicts have distinct keys (which Python dicts always do). -/
theorem dictEq_iff (d1 d2 : List (String × String))
    (h1 : (d1.map Prod.fst).Nodup) (h2 : (d2.map Prod.fst).Nodup) :
    dictEq d1 d2 = true ↔ ∀ k, dlookup k d1 = dlookup k d2 := by
  simp only [dictEq, Bool.and_eq_true, List.all_eq_true, beq_iff_eq]
  constructor
  · rintro ⟨ha, hb⟩ k
    cases hc : dlookup k d1 with
    | some v => exact (ha (k, v) (dlookup_mem k v d1 hc)).symm
    | none =>
      cases hd : dlookup k d2 with
      | none => rfl
      | some v =>
        have hcontra := hb (k, v) (dlookup_mem k v d2 hd)
        rw [hc] at hcontra
        exact absurd hcontra (by simp)
  · intro hpt
    refine ⟨fun p hp => ?_, fun p hp => ?_⟩
    · obtain ⟨k, v⟩ := p
      rw [← hpt k]
      exact mem_dlookup k v d1 h1 hp
    · obtain ⟨k, v⟩ := p
      rw [hpt k]
      exact mem_dlookup k v d2 h2 hp

/-- Claim C1, counterexample: removals and updates share the key owner,
yet construction succeeds with the fields stored verbatim — no
ValidationError is raised, because the generated constructor performs no
conflict check. -/
theorem C1_counterexample :
    AlterDatabaseRequest.construct ["owner"] [("owner", "team_b")] =
        Except.ok ⟨["owner"], [("owner", "team_b")]⟩ ∧
      "owner" ∈ (["owner"] : List String) ∧
      dlookup "owner" [("owner", "team_b")] = some "team_b" :=
  ⟨rfl, by simp, rfl⟩

/-- Claim C1, amended: constructing an AlterDatabaseRequest never fails,
even when removals and updates share a key — the constructor performs no
conflict check and stores the fields verbatim; in particular the disjoint
example succeeds. -/
theorem C1_no_conflict_check :
    (∀ (r : List String) (u : List (String × String)),
        AlterDatabaseRequest.construct r u = Except.ok ⟨r, u⟩) ∧
      AlterDatabaseRequest.construct ["legacy_flag"] [("region", "us-east")] =
        Except.ok ⟨["legacy_flag"], [("region", "us-east")]⟩ :=
  ⟨fun _ _ => rfl, rfl⟩

/-- Claim C2, counterexample: an empty database_name, an empty object_name,
and both empty all construct successfully — no ValidationError is ever
raised. -/
theorem C2_counterexample :
    Identifier.construct "" "x" = Except.ok ⟨"", "x"⟩ ∧
      Identifier.construct "x" "" = Except.ok ⟨"x", ""⟩ ∧
      Identifier.construct "" "" = Except.ok ⟨"", ""⟩ :=
  ⟨rfl, rfl, rfl⟩

/-- Claim C2, amended: for every pair of strings where database_name or
object_name is empty, construction nevertheless succeeds synchronously and
stores the fields verbatim — the generated constructor performs no
validation. -/
theorem C2_empty_strings_accepted (d o : String) (_h : d = "" ∨ o = "") :
    Identifier.construct d o = Except.ok ⟨d, o⟩ :=
  rfl

/-- Claim C2, witness for the amended theorem at a concrete empty
database_name. -/
theorem C2_empty_strings_accepted_witness :
    Identifier.construct "" "orders" = Except.ok ⟨"", "orders"⟩ :=
  C2_empty_strings_accepted "" "orders" (Or.inl rfl)

/-- Claim C3, counterexample: constructing with an empty name and empty
properties succeeds — no ValidationError referencing name is raised. -/
theorem C3_counterexample :
    CreateDatabaseRequest.construct "" [] = Except.ok ⟨"", []⟩ :=
  rfl

/-- Claim C3, amended: constructing a CreateDatabaseRequest with an empty
name succeeds for every properties mapping and raises no error — the
generated constructor performs no validation of the name field. -/
theorem C3_empty_name_accepted (p : List (String × String)) :
    CreateDatabaseRequest.construct "" p = Except.ok ⟨"", p⟩ :=
  rfl

/-- Claim C4: for non-empty database_name and object_name, construction
succeeds and the fields round-trip exactly, with no normalization and no
trimming. -/
theorem C4_identifier_roundtrip (d o : String) (_hd : d ≠ "") (_ho : o ≠ "") :
    Identifier.construct d o = Except.ok ⟨d, o⟩ :=
  rfl

/-- Claim C4, witness at concrete non-empty names. -/
theorem C4_identifier_roundtrip_witness :
    Identifier.construct "sales" "orders" = Except.ok ⟨"sales", "orders"⟩ :=
  C4_identifier_roundtrip "sales" "orders" (by decide) (by decide)

/-- Claim C5: every CreateDatabaseRequest and AlterDatabaseRequest value is
classified as a request (construction itself always succeeds), while every
value that is not one of the two known request variants — an Identifier in
particular, and also a bare RESTRequest instance — fails classification
with TypeMismatchError. -/
theorem C5_classification :
    (∀ r : CreateDatabaseRequest,
        classify_as_request (PyValue.ofCreateDatabaseRequest r) =
          Except.ok true) ∧
      (∀ r : AlterDatabaseRequest,
        classify_as_request (PyValue.ofAlterDatabaseRequest r) =
          Except.ok true) ∧
      (∀ (n : String) (p : List (String × String)),
        CreateDatabaseRequest.construct n p = Except.ok ⟨n, p⟩) ∧
      (∀ i : Identifier,
        classify_as_request (PyValue.ofIdentifier i) =
          Except.error PyError.typeMismatchError) ∧
      (∀ v : PyValue,
        (∀ r : CreateDatabaseRequest, v ≠ PyValue.ofCreateDatabaseRequest r) →
          (∀ r : AlterDatabaseRequest, v ≠ PyValue.ofAlterDatabaseRequest r) →
          classify_as_request v = Except.error PyError.typeMismatchError) := by
  refine ⟨fun _ => rfl, fun _ => rfl, fun _ _ => rfl, fun _ => rfl, ?_⟩
  intro v h1 h2
  cases v with
  | bareRESTRequest => rfl
  | ofIdentifier i => rfl
  | ofCreateDatabaseRequest r => exact absurd rfl (h1 r)
  | ofAlterDatabaseRequest r => exact absurd rfl (h2 r)

/-- Claim C5, witness: the general TypeMismatchError clause applied to a
concrete non-variant value, the bare RESTRequest instance, together with a
concrete known-variant value classified as a request. -/
theorem C5_classification_witness :
    classify_as_request
        (PyValue.ofCreateDatabaseRequest ⟨"sales", [("owner", "team_a")]⟩) =
      Except.ok true ∧
      classify_as_request PyValue.bareRESTRequest =
        Except.error PyError.typeMismatchError :=
  ⟨C5_classification.1 ⟨"sales", [("owner", "team_a")]⟩,
    C5_classification.2.2.2.2 PyValue.bareRESTRequest
      (fun _ h => PyValue.noConfusion h) (fun _ h => PyValue.noConfusion h)⟩

/-- Claim C6, counterexample: after constructing an Identifier, attribute
assignment succeeds (the dataclass is not frozen) and changes the
database_name field — the instance is not immutable. -/
theorem C6_counterexample :
    Identifier.construct "db" "obj" = Except.ok ⟨"db", "obj"⟩ ∧
      Identifier.set_database_name ⟨"db", "obj"⟩ "other" =
        Except.ok ⟨"other", "obj"⟩ ∧
      (Identifier.mk "other" "obj").database_name ≠
        (Identifier.mk "db" "obj").database_name :=
  ⟨rfl, rfl, by decide⟩

/-- Claim C6, amended: construction of all three classes is pure — each
constructor deterministically returns exactly the record of its arguments
with no other effect — but the constructed values are mutable: the
dataclasses are not frozen, so attribute assignment after construction
succeeds and replaces the field. -/
theorem C6_pure_but_mutable :
    (∀ d o : String, Identifier.construct d o = Except.ok ⟨d, o⟩) ∧
      (∀ (n : String) (p : List (String × String)),
        CreateDatabaseRequest.construct n p = Except.ok ⟨n, p⟩) ∧
      (∀ (r : List String) (u : List (String × String)),
        AlterDatabaseRequest.construct r u = Except.ok ⟨r, u⟩) ∧
      Identifier.frozen = false ∧
      (∀ (i : Identifier) (v : String),
        Identifier.set_database_name i v = Except.ok ⟨v, i.object_name⟩) :=
  ⟨fun _ _ => rfl, fun _ _ => rfl, fun _ _ => rfl, rfl, fun _ _ => rfl⟩

/-- Claim C7: with any fixed updates mapping, construction succeeds both
with duplicated removals and with the single removal, and deduplicating
the removals of the two constructed values yields the same list and the
same finite set. -/
theorem C7_duplicate_removals_idempotent (u : List (String × String)) :
    AlterDatabaseRequest.construct ["a", "a"] u =
        Except.ok ⟨["a", "a"], u⟩ ∧
      AlterDatabaseRequest.construct ["a"] u = Except.ok ⟨["a"], u⟩ ∧
      (AlterDatabaseRequest.mk ["a", "a"] u).removals.dedup =
        (AlterDatabaseRequest.mk ["a"] u).removals.dedup ∧
      (AlterDatabaseRequest.mk ["a", "a"] u).removals.toFinset =
        (AlterDatabaseRequest.mk ["a"] u).removals.toFinset :=
  ⟨rfl, rfl,
    by show (["a", "a"] : List String).dedup = (["a"] : List String).dedup
       decide,
    by show (["a", "a"] : List String).toFinset = (["a"] : List String).toFinset
       decide⟩

/-- Claim C8: dataclass equality is structural — two Identifier values
compare equal exactly when their fields coincide, and two request values
of the same variant compare equal exactly when their string and list
fields coincide and their dict fields agree on every key (Python dict
equality is insertion-order insensitive, so dict fields are compared as
mappings). -/
theorem C8_structural_equality :
    (∀ a b : Identifier, Identifier.pyEq a b = true ↔ a = b) ∧
      (∀ a b : CreateDatabaseRequest,
        (a.properties.map Prod.fst).Nodup →
          (b.properties.map Prod.fst).Nodup →
          (CreateDatabaseRequest.pyEq a b = true ↔
            a.name = b.name ∧
              ∀ k, dlookup k a.properties = dlookup k b.properties)) ∧
      (∀ a b : AlterDatabaseRequest,
        (a.updates.map Prod.fst).Nodup → (b.updates.map Prod.fst).Nodup →
          (AlterDatabaseRequest.pyEq a b = true ↔
            a.removals = b.removals ∧
              ∀ k, dlookup k a.updates = dlookup k b.updates)) := by
  refine ⟨?_, ?_, ?_⟩
  · intro a b
    cases a
    cases b
    simp [Identifier.pyEq, Identifier.mk.injEq]
  · intro a b h1 h2
    simp [CreateDatabaseRequest.pyEq, dictEq_iff _ _ h1 h2]
  · intro a b h1 h2
    simp [AlterDatabaseRequest.pyEq, dictEq_iff _ _ h1 h2]

/-- Claim C8, witness at concrete request values with distinct keys. -/
theorem C8_structural_equality_witness :
    CreateDatabaseRequest.pyEq ⟨"sales", [("owner", "team_a")]⟩
        ⟨"sales", [("owner", "team_a")]⟩ = true ↔
      ("sales" : String) = "sales" ∧
        ∀ k, dlookup k [("owner", "team_a")] =
          dlookup k [("owner", "team_a")] :=
  C8_structural_equality.2.1 ⟨"sales", [("owner", "team_a")]⟩
    ⟨"sales", [("owner", "team_a")]⟩ (by decide) (by decide)

/-- Claim C9: construction is total — for all string inputs whatsoever,
including empty strings, empty-string keys and overlapping
removals/updates, each of the three constructors succeeds and returns the
fields verbatim; no validation of any kind is performed. -/
theorem C9_constructors_total :
    (∀ d o : String, Identifier.construct d o = Except.ok ⟨d, o⟩) ∧
      (∀ (n : String) (p : List (String × String)),
        CreateDatabaseRequest.construct n p = Except.ok ⟨n, p⟩) ∧
      (∀ (r : List String) (u : List (String × String)),
        AlterDatabaseRequest.construct r u = Except.ok ⟨r, u⟩) :=
  ⟨fun _ _ => rfl, fun _ _ => rfl, fun _ _ => rfl⟩

/-- Claim C10: RESTRequest declares no abstract methods, so Python's ABC
rule lets it be instantiated directly; the resulting bare instance passes
the isinstance RESTRequest capability check while being neither of the
known request variants. -/
theorem C10_bare_restrequest_value :
    abstractMethods PyClass.restRequest = [] ∧
      instantiable PyClass.restRequest = true ∧
      isinstance PyValue.bareRESTRequest PyClass.restRequest = true ∧
      PyValue.bareRESTRequest.classOf ≠ PyClass.createDatabaseRequestClass ∧
      PyValue.bareRESTRequest.classOf ≠ PyClass.alterDatabaseRequestClass ∧
      (∀ r : CreateDatabaseRequest,
        PyValue.bareRESTRequest ≠ PyValue.ofCreateDatabaseRequest r) ∧
      (∀ r : AlterDatabaseRequest,
        PyValue.bareRESTRequest ≠ PyValue.ofAlterDatabaseRequest r) :=
  ⟨rfl, rfl, by decide, by decide, by decide,
    fun _ h => PyValue.noConfusion h, fun _ h => PyValue.noConfusion h⟩
